import Mathlib

/-!
Shallow embedding of the Mahabank personal-loan decision engine from
`src/app.py`.  The file models both front-end variants contained in that
source file: the plain engine (namespace `Plain`, lines 23-278) and the
compliance/visit-gated engine (namespace `Valid`, lines 546-777).
Python floats are modelled as `ℚ`, Python ints as `ℤ`, `None` as
`Option`, and the one fallible operation (the compound-interest division
in `emi_amount`, which can divide by zero) as `Option ℚ`.
-/

set_option maxRecDepth 10000

/-- Python truthiness of `x or d` for an optional float: `None` and `0.0`
are falsy, so both fall back to the default. -/
def pyOrQ (o : Option ℚ) (d : ℚ) : ℚ :=
  match o with
  | none => d
  | some x => if x = 0 then d else x

/-- Python truthiness of `x or d` for an optional int. -/
def pyOrZ (o : Option ℤ) (d : ℤ) : ℤ :=
  match o with
  | none => d
  | some x => if x = 0 then d else x

/-- Python truthiness of `x or d` for an optional string (`None` and the
empty string are falsy). -/
def pyOrS (o : Option String) (d : String) : String :=
  match o with
  | none => d
  | some s => if s = "" then d else s

/-- Python truthiness of `n or d` for a plain (non-optional) int. -/
def pyOrV (n : ℤ) (d : ℤ) : ℤ :=
  if n = 0 then d else n

/-- Python `str.lower()` restricted to its ASCII action (the dict keys it
is compared against are all ASCII): lower-case every character. -/
def pyLower (s : String) : String :=
  ⟨s.data.map Char.toLower⟩

/-- `MARITAL_SCORE` dict (`app.py` line 79). -/
def MARITAL_SCORE (s : String) : Option ℚ :=
  if s = "single" then some 3
  else if s = "married" then some 5
  else if s = "divorced" then some 1
  else none

/-- `AGE_SCORE` lambda (`app.py` line 80). -/
def AGE_SCORE (age : ℤ) : ℚ :=
  if age ≤ 21 then 0 else if age ≤ 30 then 3 else if age ≤ 45 then 5
  else if age ≤ 55 then 4 else 2

/-- `DEPENDENT_SCORE` lambda (`app.py` line 81). -/
def DEPENDENT_SCORE (d : ℤ) : ℚ :=
  if d < 2 then 5 else if d ≤ 3 then 4 else if d ≤ 5 then 3 else 1

/-- `BANK_REL_SCORE` lambda (`app.py` line 82). -/
def BANK_REL_SCORE (yrs : ℤ) : ℚ :=
  if yrs = 0 then 1 else if yrs < 5 then 3 else if yrs < 10 then 4 else 5

/-- `RESIDENCE_SCORE` dict (`app.py` line 83). -/
def RESIDENCE_SCORE (s : String) : Option ℚ :=
  if s = "rented" then some 1
  else if s = "owned_non_metro" then some 2
  else if s = "owned_metro" then some 3
  else if s = "kaccha" then some 1
  else none

/-- `YEARS_AT_ADDRESS_SCORE` lambda (`app.py` line 84). -/
def YEARS_AT_ADDRESS_SCORE (y : ℤ) : ℚ :=
  if y < 1 then 0 else if y ≤ 3 then 1 else 2

/-- `SPOUSE_INCOME_SCORE` lambda (`app.py` line 85). -/
def SPOUSE_INCOME_SCORE (amt : ℚ) : ℚ :=
  if amt > 500000 then 5 else if amt > 300000 then 4
  else if amt > 100000 then 2 else 0

/-- `DISPOSABLE_INCOME_SCORE` lambda (`app.py` line 86). -/
def DISPOSABLE_INCOME_SCORE (monthly : ℚ) : ℚ :=
  if monthly ≤ 8000 then 0 else if monthly ≤ 15000 then 2
  else if monthly ≤ 25000 then 3 else 5

/-- `EMI_NMI_SCORE` lambda (`app.py` line 87): a non-monotonic band. -/
def EMI_NMI_SCORE (pct : ℚ) : ℚ :=
  if 20 ≤ pct ∧ pct ≤ 25 then 10
  else if 25 < pct ∧ pct ≤ 40 then 8
  else if 40 < pct ∧ pct ≤ 65 then 6 else 0

/-- `REPAYMENT_TYPE_SCORE` dict (`app.py` line 88). -/
def REPAYMENT_TYPE_SCORE (s : String) : Option ℚ :=
  if s = "others" then some 0
  else if s = "post_dated_cheques" then some 2
  else if s = "nach_other_bank" then some 3
  else if s = "si_bom" then some 4
  else if s = "checkoff" then some 5
  else none

/-- `ITR_SCORE` lambda (`app.py` line 89). -/
def ITR_SCORE (years : ℤ) : ℚ :=
  if years ≥ 3 then 5 else if years = 2 then 4 else if years = 1 then 3 else 0

/-- `AVG_BALANCE_SCORE` lambda (`app.py` line 90). -/
def AVG_BALANCE_SCORE (rp : ℚ) : ℚ :=
  if rp > 200 then 5 else if rp > 100 then 4 else if rp > 50 then 3 else 2

/-- `CIBIL_SCORE_SCORE` lambda (`app.py` line 91), with the documented
inversion between the `>600` and `≤600` bands. -/
def CIBIL_SCORE_SCORE (s : ℤ) : ℚ :=
  if s ≥ 800 then 10 else if s ≥ 750 then 8 else if s ≥ 700 then 6
  else if s > 600 then 0 else 3

/-- `CREDIT_HISTORY_MAP` dict (`app.py` lines 92-93). -/
def CREDIT_HISTORY_MAP (s : String) : Option ℚ :=
  if s = "best_36m" then some 10
  else if s = "no_overdues_12m_prior" then some 6
  else if s = "less_6m_no_arrears" then some 4
  else if s = "no_bureau_hit" then some 3
  else if s = "overdues_12m" then some 2
  else if s = "less6m_with_arrears" then some 0
  else if s = "weak_with_settlements" then some 0
  else none

/-- `PROF_NETWORTH_SCORE` lambda (`app.py` line 96). -/
def PROF_NETWORTH_SCORE (r : ℚ) : ℚ :=
  if r < 1/2 then 0 else if r < 3/4 then 3 else 5

/-- `PROF_INCOME_TREND_SCORE` dict (`app.py` line 97). -/
def PROF_INCOME_TREND_SCORE (s : String) : Option ℚ :=
  if s = "increasing" then some 5
  else if s = "stable" then some 2
  else if s = "unstable" then some 1
  else if s = "decreasing" then some 0
  else none

/-- `PROF_TURNOVER_SCORE` lambda (`app.py` line 98), breakpoints
`50e5/80e5/120e5/400e5`. -/
def PROF_TURNOVER_SCORE (t : ℚ) : ℚ :=
  if t < 5000000 then 1 else if t < 8000000 then 2
  else if t < 12000000 then 3 else if t < 40000000 then 4 else 5

/-- `PROF_ITR_SCORE` lambda (`app.py` line 99). -/
def PROF_ITR_SCORE (yrs : ℤ) : ℚ :=
  if yrs ≥ 5 then 5 else if yrs ≥ 3 then 4 else if yrs ≥ 2 then 3 else 0

/-- CIBIL slab keys used by the rate tables (`800`, `776`, `750`, `700`
and the string `'ntc'` in the Python dicts). -/
inductive Slab
  | s800
  | s776
  | s750
  | s700
  | ntc
deriving DecidableEq, Repr

/-- The CIBIL slab bucketing performed inline in both branches of
`determine_interest_rate` (`app.py` lines 193-203 and 209-219). -/
def slabOf (s : ℤ) : Slab :=
  if s ≥ 800 then .s800 else if s ≥ 776 then .s776 else if s ≥ 750 then .s750
  else if s ≥ 700 then .s700 else .ntc

/-- `RATE_TABLE_SALARIED` (`app.py` lines 104-110): a sparse dict keyed by
(category, channel, slab).  No `('C','bom',_)` keys exist. -/
def RATE_TABLE_SALARIED : String → String → Slab → Option ℚ
  | "A", "bom", .s800 => some 0.70
  | "A", "bom", .s776 => some 1.00
  | "A", "bom", .s750 => some 1.50
  | "A", "bom", .s700 => some 2.00
  | "A", "bom", .ntc => some 1.70
  | "A", "other", .s800 => some 1.50
  | "A", "other", .s776 => some 2.00
  | "A", "other", .s750 => some 2.50
  | "A", "other", .s700 => some 3.00
  | "A", "other", .ntc => some 2.75
  | "B", "bom", .s800 => some 1.50
  | "B", "bom", .s776 => some 2.00
  | "B", "bom", .s750 => some 2.50
  | "B", "bom", .s700 => some 3.00
  | "B", "bom", .ntc => some 2.75
  | "B", "other", .s800 => some 1.90
  | "B", "other", .s776 => some 2.50
  | "B", "other", .s750 => some 3.00
  | "B", "other", .s700 => some 3.50
  | "B", "other", .ntc => some 3.25
  | "C", "other", .s800 => some 1.90
  | "C", "other", .s776 => some 2.45
  | "C", "other", .s750 => some 2.95
  | "C", "other", .s700 => some 3.45
  | "C", "other", .ntc => some 3.25
  | _, _, _ => none

/-- `RATE_TABLE_PROF` (`app.py` line 111): total on the five slabs. -/
def RATE_TABLE_PROF : Slab → Option ℚ
  | .s800 => some 2.00
  | .s776 => some 2.50
  | .s750 => some 3.00
  | .s700 => some 3.50
  | .ntc => some 2.75

/-- The grade expression inlined identically in all four scoring
functions (`app.py` lines 147, 185, 664, 702). -/
def gradeOf (score : ℚ) : ℤ :=
  if score > 80 then 1 else if score ≥ 71 then 2 else if score ≥ 61 then 3
  else if score ≥ 50 then 4 else 5

/-- `emi_amount` (`app.py` lines 23-30, identical at lines 546-553).
Python raises `ZeroDivisionError` when the compound denominator
`(1+r)**months - 1` is zero; that fallible division is modelled by
returning `none`. -/
def emi_amount (principal annual_rate_percent : ℚ) (months : ℤ) : Option ℚ :=
  if principal ≤ 0 ∨ months ≤ 0 then some 0
  else
    let r := annual_rate_percent / 100 / 12
    if r = 0 then some (principal / (months : ℚ))
    else if (1 + r) ^ months.toNat - 1 = 0 then none
    else some (principal * r * (1 + r) ^ months.toNat / ((1 + r) ^ months.toNat - 1))

/-- `gross_monthly = app.gross_monthly_income or
(app.gross_annual_income/12 if app.gross_annual_income else 0)`
(`app.py` line 260, identical at line 763). -/
def gross_monthly_of (gmi gai : Option ℚ) : ℚ :=
  pyOrQ gmi
    (match gai with
     | some ga => if ga = 0 then 0 else ga / 12
     | none => 0)

/-- The `Applicant` dataclass (`app.py` lines 35-62). -/
structure Applicant where
  name : String := ""
  applicant_type : String
  age : ℤ
  gross_monthly_income : Option ℚ := none
  gross_annual_income : Option ℚ := none
  cibil_score : Option ℤ := none
  salary_account_with_bom : Bool := false
  category : Option String := none
  work_experience_years : Option ℚ := some 0
  marital_status : Option String := none
  dependents : Option ℤ := some 0
  bank_relationship_years : Option ℤ := some 0
  residence_type : Option String := none
  years_at_address : Option ℤ := some 0
  spouse_income_annual : Option ℚ := some 0
  disposable_monthly_income : Option ℚ := some 0
  emi_nmi_ratio_percent : Option ℚ := none
  repayment_type : Option String := none
  itr_years_filed : Option ℤ := some 0
  avg_balance_to_emi_ratio_percent : Option ℚ := none
  credit_history_score_choice : Option String := none
  net_worth : Option ℚ := none
  proposed_loan_amount : Option ℚ := none
  business_turnover_annual : Option ℚ := none
  income_trend : Option String := none
deriving DecidableEq

/-- The compliance-variant `Applicant` dataclass (`app.py` lines 556-591):
the plain fields plus compliance flags and the visit sub-record. -/
structure CApplicant extends Applicant where
  kyc_ok : Bool := false
  payslips_ok : Bool := false
  fraud_ok : Bool := false
  bank_rel_ok : Bool := false
  address_ok : Bool := false
  visit_officer : Option String := none
  visit_date : Option String := none
  visit_verified : Bool := false
  visit_remarks : Option String := none
deriving DecidableEq

/-- A value in a `Decision.details` dict (numbers, ints and booleans
appear there in the source). -/
inductive DVal
  | num : ℚ → DVal
  | int : ℤ → DVal
  | flag : Bool → DVal
deriving DecidableEq, Repr

/-- The distinct rejection/sanction reason strings emitted by the two
engines, abstracted to constructors (keeping their numeric payloads). -/
inductive Reason
  | typeInvalid
  | cibilBelow : Option ℤ → Reason
  | ageBand : ℤ → Reason
  | insufficientIncome
  | dedNormExceeded : ℚ → ℚ → Reason
  | clearSanction
  | normalAuthority
  | higherAuthority
  | complianceFailed
  | psvrIncomplete
deriving DecidableEq, Repr

/-- The `Decision` dataclass (`app.py` lines 64-74, identical at
lines 593-603); `details=None` is modelled as the empty list. -/
structure Decision where
  eligible : Bool
  reason : Reason
  recommended_loan : ℚ := 0
  tenure_months : ℤ := 0
  annual_rate_percent : ℚ := 0
  emi : ℚ := 0
  score : Option ℚ := none
  grade : Option ℤ := none
  details : List (String × DVal) := []
deriving DecidableEq

namespace Plain

/-- `compute_score_salaried` of the plain variant (`app.py` lines
116-148).  Note the `.lower()` on the marital status. -/
def compute_score_salaried (a : Applicant) : ℚ × ℤ :=
  let we := pyOrQ a.work_experience_years 0
  let we_pts : ℚ := if we < 1 then 0 else if we < 3 then 3 else if we < 5 then 4 else 5
  let score : ℚ := 3 + 2 + we_pts
    + (MARITAL_SCORE (pyLower (pyOrS a.marital_status "single"))).getD 3
    + AGE_SCORE (pyOrV a.age 0)
    + DEPENDENT_SCORE (pyOrZ a.dependents 0)
    + BANK_REL_SCORE (pyOrZ a.bank_relationship_years 0)
    + (RESIDENCE_SCORE (pyOrS a.residence_type "rented")).getD 1
    + YEARS_AT_ADDRESS_SCORE (pyOrZ a.years_at_address 0)
    + SPOUSE_INCOME_SCORE (pyOrQ a.spouse_income_annual 0)
    + DISPOSABLE_INCOME_SCORE (pyOrQ a.disposable_monthly_income 0)
    + EMI_NMI_SCORE (pyOrQ a.emi_nmi_ratio_percent 0)
    + (REPAYMENT_TYPE_SCORE (pyOrS a.repayment_type "others")).getD 0
    + ITR_SCORE (pyOrZ a.itr_years_filed 0)
    + AVG_BALANCE_SCORE (pyOrQ a.avg_balance_to_emi_ratio_percent 0)
    + CIBIL_SCORE_SCORE (pyOrZ a.cibil_score 0)
    + (CREDIT_HISTORY_MAP (pyOrS a.credit_history_score_choice "best_36m")).getD 10
  let score := min score 100
  (score, gradeOf score)

/-- `compute_score_professional` of the plain variant (`app.py` lines
150-186). -/
def compute_score_professional (a : Applicant) : ℚ × ℤ :=
  let we := pyOrQ a.work_experience_years 0
  let we_pts : ℚ := if we < 2 then 0 else if we < 5 then 2 else if we < 7 then 3
    else if we < 10 then 4 else 5
  let nwr : ℚ :=
    match a.proposed_loan_amount, a.net_worth with
    | some p, some nw => if p ≠ 0 ∧ 0 < p then nw / p else 0
    | _, _ => 0
  let score : ℚ := 3
    + DEPENDENT_SCORE (pyOrZ a.dependents 0)
    + we_pts
    + (MARITAL_SCORE (pyLower (pyOrS a.marital_status "single"))).getD 3
    + AGE_SCORE (pyOrV a.age 0)
    + BANK_REL_SCORE (pyOrZ a.bank_relationship_years 0) * (10 / 5)
    + (RESIDENCE_SCORE (pyOrS a.residence_type "rented")).getD 1
    + YEARS_AT_ADDRESS_SCORE (pyOrZ a.years_at_address 0)
    + DISPOSABLE_INCOME_SCORE (pyOrQ a.disposable_monthly_income 0)
    + EMI_NMI_SCORE (pyOrQ a.emi_nmi_ratio_percent 0)
    + PROF_NETWORTH_SCORE nwr
    + (PROF_INCOME_TREND_SCORE (pyOrS a.income_trend "stable")).getD 2
    + PROF_TURNOVER_SCORE (pyOrQ a.business_turnover_annual 0)
    + PROF_ITR_SCORE (pyOrZ a.itr_years_filed 0)
    + AVG_BALANCE_SCORE (pyOrQ a.avg_balance_to_emi_ratio_percent 0)
    + CIBIL_SCORE_SCORE (pyOrZ a.cibil_score 0)
    + (CREDIT_HISTORY_MAP (pyOrS a.credit_history_score_choice "best_36m")).getD 10
  let score := min score 100
  (score, gradeOf score)

/-- `determine_interest_rate` of the plain variant (`app.py` lines
191-221). -/
def determine_interest_rate (a : Applicant) (base_rllr_percent : ℚ) : ℚ :=
  if a.applicant_type = "salaried" then
    let s := pyOrZ a.cibil_score 0
    let key1 := pyOrS a.category "C"
    let key2 := if a.salary_account_with_bom then "bom" else "other"
    let spread : ℚ :=
      match RATE_TABLE_SALARIED key1 key2 (slabOf s) with
      | none => 3.5
      | some v => v
    base_rllr_percent + spread
  else
    let s := pyOrZ a.cibil_score 0
    let spread := (RATE_TABLE_PROF (slabOf s)).getD ((RATE_TABLE_PROF .ntc).getD 2.75)
    base_rllr_percent + spread

/-- The score/grade selection of the plain engine (`app.py` lines
236-240): salaried applicants use the salaried scorer, everything else
the professional scorer. -/
def scoreOf (a : Applicant) : ℚ × ℤ :=
  if a.applicant_type = "salaried" then compute_score_salaried a
  else compute_score_professional a

/-- The eligible amount, tenure and deduction-norm limit of the plain
engine (`app.py` lines 241-256), as a triple. -/
def capTenureDed (a : Applicant) : ℚ × ℤ × ℚ :=
  if a.applicant_type = "salaried" then
    let gm := pyOrQ a.gross_monthly_income 0
    let eligible_by_income := 20 * gm
    let max_limit : ℚ := 2000000
    let eligible_amount := min eligible_by_income max_limit
    let tenure_months : ℤ :=
      if a.category = some "A" ∧ a.salary_account_with_bom then 84 else 60
    let ded_limit_pct : ℚ := if a.category = some "A" then 65 else 60
    (eligible_amount, tenure_months, ded_limit_pct)
  else
    let ga := pyOrQ a.gross_annual_income 0
    (min (1.5 * ga) 2000000, 60, 60)

/-- The scoring-and-recommendation tail of the plain engine (`app.py`
lines 236-278), entered once every gate has passed. -/
def score_and_recommend (a : Applicant) (base_rllr_percent : ℚ) : Option Decision :=
    let sg := scoreOf a
    let etd := capTenureDed a
    let eligible_amount := etd.1
    let tenure_months := etd.2.1
    let ded_limit_pct := etd.2.2
    let proposed := pyOrQ a.proposed_loan_amount eligible_amount
    let annual_rate := determine_interest_rate a base_rllr_percent
    match emi_amount proposed annual_rate tenure_months with
    | none => none
    | some emi =>
      let gross_monthly := gross_monthly_of a.gross_monthly_income a.gross_annual_income
      if gross_monthly ≤ 0 then
        some { eligible := false, reason := .insufficientIncome,
               details := [("score", .num sg.1), ("grade", .int sg.2)] }
      else
        let proposed_emi_pct := emi / gross_monthly * 100
        if proposed_emi_pct > ded_limit_pct then
          some { eligible := false, reason := .dedNormExceeded proposed_emi_pct ded_limit_pct,
                 details := [("score", .num sg.1), ("grade", .int sg.2),
                             ("proposed_emi_pct", .num proposed_emi_pct)] }
        else
          let recPair : Option (ℚ × ℚ) :=
            if proposed > eligible_amount then
              match emi_amount eligible_amount annual_rate tenure_months with
              | none => none
              | some re => some (eligible_amount, re)
            else some (proposed, emi)
          match recPair with
          | none => none
          | some rp =>
            some { eligible := decide (sg.2 ≤ 3),
                   reason := if sg.2 = 1 then .clearSanction
                             else if sg.2 = 2 ∨ sg.2 = 3 then .normalAuthority
                             else .higherAuthority,
                   recommended_loan := rp.1, tenure_months := tenure_months,
                   annual_rate_percent := annual_rate, emi := rp.2,
                   score := some sg.1, grade := some sg.2,
                   details := [("proposed", .num proposed),
                               ("eligible_by_income", .num eligible_amount),
                               ("proposed_emi_pct", .num proposed_emi_pct)] }

/-- `eligibility_and_recommendation` of the plain variant (`app.py`
lines 226-278): the applicant-type, CIBIL and salaried-age gates,
then the scoring-and-recommendation tail.  `none` marks the Python
executions that raise `ZeroDivisionError` inside `emi_amount`. -/
def eligibility_and_recommendation (a : Applicant) (base_rllr_percent : ℚ) : Option Decision :=
  if ¬ (a.applicant_type = "salaried" ∨ a.applicant_type = "professional") then
    some { eligible := false, reason := .typeInvalid }
  else if (match a.cibil_score with | some c => decide (c < 700) | none => false) then
    some { eligible := false, reason := .cibilBelow a.cibil_score }
  else if a.applicant_type = "salaried" ∧ (a.age < 21 ∨ a.age > 58) then
    some { eligible := false, reason := .ageBand a.age }
  else
    score_and_recommend a base_rllr_percent

end Plain

namespace Valid

/-- `compute_score_salaried` of the compliance variant (`app.py` lines
635-665).  Unlike the plain variant there is no `.lower()` on the
marital status, and the age is used directly. -/
def compute_score_salaried (a : Applicant) : ℚ × ℤ :=
  let we := pyOrQ a.work_experience_years 0
  let we_pts : ℚ := if we < 1 then 0 else if we < 3 then 3 else if we < 5 then 4 else 5
  let score : ℚ := 3 + 2 + we_pts
    + (MARITAL_SCORE (pyOrS a.marital_status "single")).getD 3
    + AGE_SCORE a.age
    + DEPENDENT_SCORE (pyOrZ a.dependents 0)
    + BANK_REL_SCORE (pyOrZ a.bank_relationship_years 0)
    + (RESIDENCE_SCORE (pyOrS a.residence_type "rented")).getD 1
    + YEARS_AT_ADDRESS_SCORE (pyOrZ a.years_at_address 0)
    + SPOUSE_INCOME_SCORE (pyOrQ a.spouse_income_annual 0)
    + DISPOSABLE_INCOME_SCORE (pyOrQ a.disposable_monthly_income 0)
    + EMI_NMI_SCORE (pyOrQ a.emi_nmi_ratio_percent 0)
    + (REPAYMENT_TYPE_SCORE (pyOrS a.repayment_type "others")).getD 0
    + ITR_SCORE (pyOrZ a.itr_years_filed 0)
    + AVG_BALANCE_SCORE (pyOrQ a.avg_balance_to_emi_ratio_percent 0)
    + CIBIL_SCORE_SCORE (pyOrZ a.cibil_score 0)
    + (CREDIT_HISTORY_MAP (pyOrS a.credit_history_score_choice "best_36m")).getD 10
  let score := min score 100
  (score, gradeOf score)

/-- `compute_score_professional` of the compliance variant (`app.py`
lines 667-703). -/
def compute_score_professional (a : Applicant) : ℚ × ℤ :=
  let we := pyOrQ a.work_experience_years 0
  let we_pts : ℚ := if we < 2 then 0 else if we < 5 then 2 else if we < 7 then 3
    else if we < 10 then 4 else 5
  let nwr : ℚ :=
    match a.proposed_loan_amount, a.net_worth with
    | some p, some nw => if p ≠ 0 ∧ 0 < p then nw / p else 0
    | _, _ => 0
  let score : ℚ := 3
    + DEPENDENT_SCORE (pyOrZ a.dependents 0)
    + we_pts
    + (MARITAL_SCORE (pyOrS a.marital_status "single")).getD 3
    + AGE_SCORE a.age
    + BANK_REL_SCORE (pyOrZ a.bank_relationship_years 0) * (10 / 5)
    + (RESIDENCE_SCORE (pyOrS a.residence_type "rented")).getD 1
    + YEARS_AT_ADDRESS_SCORE (pyOrZ a.years_at_address 0)
    + DISPOSABLE_INCOME_SCORE (pyOrQ a.disposable_monthly_income 0)
    + EMI_NMI_SCORE (pyOrQ a.emi_nmi_ratio_percent 0)
    + PROF_NETWORTH_SCORE nwr
    + (PROF_INCOME_TREND_SCORE (pyOrS a.income_trend "stable")).getD 2
    + PROF_TURNOVER_SCORE (pyOrQ a.business_turnover_annual 0)
    + PROF_ITR_SCORE (pyOrZ a.itr_years_filed 0)
    + AVG_BALANCE_SCORE (pyOrQ a.avg_balance_to_emi_ratio_percent 0)
    + CIBIL_SCORE_SCORE (pyOrZ a.cibil_score 0)
    + (CREDIT_HISTORY_MAP (pyOrS a.credit_history_score_choice "best_36m")).getD 10
  let score := min score 100
  (score, gradeOf score)

/-- `determine_interest_rate` of the compliance variant (`app.py` lines
705-733); the salaried lookup uses `dict.get(key, 3.5)` directly. -/
def determine_interest_rate (a : Applicant) (base_rllr_percent : ℚ) : ℚ :=
  if a.applicant_type = "salaried" then
    let s := pyOrZ a.cibil_score 0
    let key1 := pyOrS a.category "C"
    let key2 := if a.salary_account_with_bom then "bom" else "other"
    let spread := (RATE_TABLE_SALARIED key1 key2 (slabOf s)).getD 3.5
    base_rllr_percent + spread
  else
    let s := pyOrZ a.cibil_score 0
    let spread := (RATE_TABLE_PROF (slabOf s)).getD ((RATE_TABLE_PROF .ntc).getD 2.75)
    base_rllr_percent + spread

/-- The score/grade selection of the compliance engine (`app.py` lines
746-749). -/
def scoreOf (a : Applicant) : ℚ × ℤ :=
  if a.applicant_type = "salaried" then compute_score_salaried a
  else compute_score_professional a

/-- The eligible amount, tenure and deduction-norm limit of the
compliance engine (`app.py` lines 750-759), as a triple. -/
def capTenureDed (a : Applicant) : ℚ × ℤ × ℚ :=
  if a.applicant_type = "salaried" then
    let gm := pyOrQ a.gross_monthly_income 0
    let eligible_amount := min (20 * gm) 2000000
    let tenure_months : ℤ :=
      if a.category = some "A" ∧ a.salary_account_with_bom then 84 else 60
    let ded_limit_pct : ℚ := if a.category = some "A" then 65 else 60
    (eligible_amount, tenure_months, ded_limit_pct)
  else
    let ga := pyOrQ a.gross_annual_income 0
    (min (1.5 * ga) 2000000, 60, 60)

/-- The scoring-and-recommendation tail of the compliance engine
(`app.py` lines 746-777), entered once every gate has passed;
it reads only the shared `Applicant` fields. -/
def score_and_recommend (a : Applicant) (base_rllr_percent : ℚ) : Option Decision :=
    let sg := scoreOf a
    let etd := capTenureDed a
    let eligible_amount := etd.1
    let tenure_months := etd.2.1
    let ded_limit_pct := etd.2.2
    let proposed := pyOrQ a.proposed_loan_amount eligible_amount
    let annual_rate := determine_interest_rate a base_rllr_percent
    match emi_amount proposed annual_rate tenure_months with
    | none => none
    | some emi =>
      let gross_monthly := gross_monthly_of a.gross_monthly_income a.gross_annual_income
      if gross_monthly ≤ 0 then
        some { eligible := false, reason := .insufficientIncome,
               details := [("gross_monthly", .num gross_monthly)] }
      else
        let proposed_emi_pct := emi / gross_monthly * 100
        if proposed_emi_pct > ded_limit_pct then
          some { eligible := false, reason := .dedNormExceeded proposed_emi_pct ded_limit_pct,
                 details := [("proposed_emi_pct", .num proposed_emi_pct)] }
        else
          let recommended := min proposed eligible_amount
          match emi_amount recommended annual_rate tenure_months with
          | none => none
          | some rec_emi =>
            some { eligible := decide (sg.2 ≤ 3),
                   reason := if sg.2 = 1 then .clearSanction
                             else if sg.2 = 2 ∨ sg.2 = 3 then .normalAuthority
                             else .higherAuthority,
                   recommended_loan := recommended, tenure_months := tenure_months,
                   annual_rate_percent := annual_rate, emi := rec_emi,
                   score := some sg.1, grade := some sg.2,
                   details := [("proposed", .num proposed),
                               ("eligible_by_income", .num eligible_amount),
                               ("proposed_emi_pct", .num proposed_emi_pct)] }

/-- `eligibility_and_recommendation` of the compliance variant
(`app.py` lines 735-777): five compliance flags, then the PSVR gate,
then a CIBIL gate that treats an absent score as 0, then the salaried
age gate, then the scoring-and-recommendation tail.  There is no
applicant-type validity gate in this variant. -/
def eligibility_and_recommendation (a : CApplicant) (base_rllr_percent : ℚ) : Option Decision :=
  if ¬ (a.kyc_ok ∧ a.payslips_ok ∧ a.fraud_ok ∧ a.bank_rel_ok ∧ a.address_ok) then
    some { eligible := false, reason := .complianceFailed,
           details := [("kyc_ok", .flag a.kyc_ok), ("payslips_ok", .flag a.payslips_ok),
                       ("fraud_ok", .flag a.fraud_ok), ("bank_rel_ok", .flag a.bank_rel_ok),
                       ("address_ok", .flag a.address_ok)] }
  else if ¬ a.visit_verified then
    some { eligible := false, reason := .psvrIncomplete,
           details := [("visit_verified", .flag a.visit_verified)] }
  else if pyOrZ a.cibil_score 0 < 700 then
    some { eligible := false, reason := .cibilBelow a.cibil_score }
  else if a.applicant_type = "salaried" ∧ (a.age < 21 ∨ a.age > 58) then
    some { eligible := false, reason := .ageBand a.age }
  else
    score_and_recommend a.toApplicant base_rllr_percent

end Valid

/-- Numeric-field agreement between two decisions ("bit-identical
numeric results"): everything except the reason text and the details
dict. -/
def Decision.sameNumbers (d1 d2 : Decision) : Prop :=
  d1.eligible = d2.eligible ∧ d1.recommended_loan = d2.recommended_loan ∧
  d1.tenure_months = d2.tenure_months ∧ d1.annual_rate_percent = d2.annual_rate_percent ∧
  d1.emi = d2.emi ∧ d1.score = d2.score ∧ d1.grade = d2.grade

instance (d1 d2 : Decision) : Decidable (d1.sameNumbers d2) := by
  unfold Decision.sameNumbers; infer_instance

/-- Numeric-field agreement lifted to possibly-raising executions. -/
def sameNumbersO : Option Decision → Option Decision → Prop
  | some d1, some d2 => d1.sameNumbers d2
  | none, none => True
  | _, _ => False

instance (o1 o2 : Option Decision) : Decidable (sameNumbersO o1 o2) := by
  unfold sameNumbersO
  rcases o1 with _ | d1 <;> rcases o2 with _ | d2 <;> infer_instance

/-- The income-based eligibility cap computed by the engines
(`app.py` lines 242-246 and 252-254): `min(20 × gross monthly, 2,000,000)`
for salaried and `min(1.5 × gross annual, 2,000,000)` for professional. -/
def capOf (a : Applicant) : ℚ :=
  if a.applicant_type = "salaried" then min (20 * pyOrQ a.gross_monthly_income 0) 2000000
  else min (1.5 * pyOrQ a.gross_annual_income 0) 2000000

/-- A salaried applicant whose marital status is capitalised: the plain
scorer lower-cases it before the dict lookup, the compliance scorer does
not. -/
def c1badApp : Applicant :=
  { applicant_type := "salaried", age := 30, cibil_score := some 810,
    category := some "A", salary_account_with_bom := true,
    gross_monthly_income := some 50000, proposed_loan_amount := some 100000,
    marital_status := some "Married" }

/-- A compliance-variant applicant with all gates passing and a
lower-case marital status, used to witness the variant agreement. -/
def c1okApp : CApplicant :=
  { applicant_type := "salaried", age := 30, cibil_score := some 810,
    category := some "A", salary_account_with_bom := true,
    gross_monthly_income := some 50000, proposed_loan_amount := some 100000,
    marital_status := some "married",
    kyc_ok := true, payslips_ok := true, fraud_ok := true, bank_rel_ok := true,
    address_ok := true, visit_verified := true }

/-- A compliance-variant applicant passing every compliance gate whose
CIBIL score is absent. -/
def c2nullCibilApp : CApplicant :=
  { applicant_type := "salaried", age := 30,
    kyc_ok := true, payslips_ok := true, fraud_ok := true, bank_rel_ok := true,
    address_ok := true, visit_verified := true }

/-- A plain-variant applicant that reaches the recommendation stage
(CIBIL 810, category A with bank salary account, income 50,000,
proposed 100,000). -/
def c3okApp : Applicant :=
  { applicant_type := "salaried", age := 30, cibil_score := some 810,
    category := some "A", salary_account_with_bom := true,
    gross_monthly_income := some 50000, proposed_loan_amount := some 100000 }

/-- The decision the plain engine returns for `c3okApp` at base rate
`-0.7` (the spread is 0.70, so the priced rate is 0). -/
def c3okDecision : Decision :=
  { eligible := false, reason := .higherAuthority,
    recommended_loan := 100000, tenure_months := 84,
    annual_rate_percent := 0, emi := 25000/21,
    score := some 40, grade := some 5,
    details := [("proposed", .num 100000), ("eligible_by_income", .num 1000000),
                ("proposed_emi_pct", .num (50/21))] }

/-- A compliance-variant applicant passing all gates (CIBIL 750) but with
no income data at all. -/
def c8validApp : CApplicant :=
  { applicant_type := "salaried", age := 30, cibil_score := some 750,
    kyc_ok := true, payslips_ok := true, fraud_ok := true, bank_rel_ok := true,
    address_ok := true, visit_verified := true }

/-- A plain-variant applicant passing the CIBIL and age gates but with no
income data. -/
def c8plainApp : Applicant :=
  { applicant_type := "salaried", age := 30, cibil_score := some 750 }

/-- A salaried applicant aged 60 whose CIBIL score is 650: the CIBIL
gate fires before the age gate. -/
def c9cibilApp : Applicant :=
  { applicant_type := "salaried", age := 60, cibil_score := some 650 }

/-- A salaried applicant aged 60 with no CIBIL score (the CIBIL gate of
the plain variant passes). -/
def c9ageApp : Applicant :=
  { applicant_type := "salaried", age := 60 }

/-- A category-C salaried applicant with a bank salary account: the
rate-table key `('C','bom',·)` is unmapped. -/
def c6cBomApp : Applicant :=
  { applicant_type := "salaried", age := 30, cibil_score := some 810,
    category := some "C", salary_account_with_bom := true }

/-- A salaried applicant with no category and a bank salary account. -/
def c10noCatApp : Applicant :=
  { applicant_type := "salaried", age := 30, cibil_score := some 810,
    salary_account_with_bom := true }

lemma pyOrV_zero (n : ℤ) : pyOrV n 0 = n := by
  unfold pyOrV; split_ifs with h
  · exact h.symm
  · rfl

lemma marital_getD_nonneg (s : String) : 0 ≤ (MARITAL_SCORE s).getD 3 := by
  unfold MARITAL_SCORE; split_ifs <;> norm_num

lemma residence_getD_nonneg (s : String) : 0 ≤ (RESIDENCE_SCORE s).getD 1 := by
  unfold RESIDENCE_SCORE; split_ifs <;> norm_num

lemma repayment_getD_nonneg (s : String) : 0 ≤ (REPAYMENT_TYPE_SCORE s).getD 0 := by
  unfold REPAYMENT_TYPE_SCORE; split_ifs <;> norm_num

lemma credit_getD_nonneg (s : String) : 0 ≤ (CREDIT_HISTORY_MAP s).getD 10 := by
  unfold CREDIT_HISTORY_MAP; split_ifs <;> norm_num

lemma trend_getD_nonneg (s : String) : 0 ≤ (PROF_INCOME_TREND_SCORE s).getD 2 := by
  unfold PROF_INCOME_TREND_SCORE; split_ifs <;> norm_num

lemma age_score_nonneg (n : ℤ) : 0 ≤ AGE_SCORE n := by
  unfold AGE_SCORE; split_ifs <;> norm_num

lemma dependent_score_nonneg (n : ℤ) : 0 ≤ DEPENDENT_SCORE n := by
  unfold DEPENDENT_SCORE; split_ifs <;> norm_num

lemma bank_rel_score_nonneg (n : ℤ) : 0 ≤ BANK_REL_SCORE n := by
  unfold BANK_REL_SCORE; split_ifs <;> norm_num

lemma yaa_score_nonneg (n : ℤ) : 0 ≤ YEARS_AT_ADDRESS_SCORE n := by
  unfold YEARS_AT_ADDRESS_SCORE; split_ifs <;> norm_num

lemma spouse_score_nonneg (q : ℚ) : 0 ≤ SPOUSE_INCOME_SCORE q := by
  unfold SPOUSE_INCOME_SCORE; split_ifs <;> norm_num

lemma disposable_score_nonneg (q : ℚ) : 0 ≤ DISPOSABLE_INCOME_SCORE q := by
  unfold DISPOSABLE_INCOME_SCORE; split_ifs <;> norm_num

lemma eminmi_score_nonneg (q : ℚ) : 0 ≤ EMI_NMI_SCORE q := by
  unfold EMI_NMI_SCORE; split_ifs <;> norm_num

lemma itr_score_nonneg (n : ℤ) : 0 ≤ ITR_SCORE n := by
  unfold ITR_SCORE; split_ifs <;> norm_num

lemma avgbal_score_nonneg (q : ℚ) : 0 ≤ AVG_BALANCE_SCORE q := by
  unfold AVG_BALANCE_SCORE; split_ifs <;> norm_num

lemma cibil_score_nonneg (n : ℤ) : 0 ≤ CIBIL_SCORE_SCORE n := by
  unfold CIBIL_SCORE_SCORE; split_ifs <;> norm_num

lemma prof_networth_score_nonneg (q : ℚ) : 0 ≤ PROF_NETWORTH_SCORE q := by
  unfold PROF_NETWORTH_SCORE; split_ifs <;> norm_num

lemma prof_turnover_score_nonneg (q : ℚ) : 0 ≤ PROF_TURNOVER_SCORE q := by
  unfold PROF_TURNOVER_SCORE; split_ifs <;> norm_num

lemma prof_itr_score_nonneg (n : ℤ) : 0 ≤ PROF_ITR_SCORE n := by
  unfold PROF_ITR_SCORE; split_ifs <;> norm_num

lemma rate_table_salaried_pos (c ch : String) (sl : Slab) (v : ℚ)
    (h : RATE_TABLE_SALARIED c ch sl = some v) : 0 < v := by
  unfold RATE_TABLE_SALARIED at h
  split at h <;> (try cases h) <;> norm_num

lemma rate_table_prof_pos (sl : Slab) : 0 < (RATE_TABLE_PROF sl).getD ((RATE_TABLE_PROF .ntc).getD 2.75) := by
  cases sl <;> norm_num [RATE_TABLE_PROF]



lemma plain_rate_gt (a : Applicant) (base : ℚ) :
    base < Plain.determine_interest_rate a base := by
  unfold Plain.determine_interest_rate
  by_cases h : a.applicant_type = "salaried"
  · simp only [if_pos h]
    cases hT : RATE_TABLE_SALARIED (pyOrS a.category "C")
        (if a.salary_account_with_bom then "bom" else "other") (slabOf (pyOrZ a.cibil_score 0)) with
    | none => simp only []; norm_num
    | some v =>
      have hv := rate_table_salaried_pos _ _ _ _ hT
      simp only []; linarith
  · simp only [if_neg h]
    have := rate_table_prof_pos (slabOf (pyOrZ a.cibil_score 0))
    linarith

lemma rate_eq (a : Applicant) (base : ℚ) :
    Plain.determine_interest_rate a base = Valid.determine_interest_rate a base := by
  unfold Plain.determine_interest_rate Valid.determine_interest_rate
  by_cases h : a.applicant_type = "salaried"
  · simp only [if_pos h]
    cases hT : RATE_TABLE_SALARIED (pyOrS a.category "C")
        (if a.salary_account_with_bom then "bom" else "other") (slabOf (pyOrZ a.cibil_score 0)) <;>
      simp
  · simp only [if_neg h]


lemma pow_eq_one_rat (x : ℚ) (n : ℕ) (hn : n ≠ 0) (h : x ^ n = 1) :
    x = 1 ∨ (x = -1 ∧ Even n) := by
  have habs : |x| ^ n = 1 := by rw [← abs_pow, h, abs_one]
  have hx1 : |x| = 1 := by
    rcases lt_trichotomy |x| 1 with hlt | heq | hgt
    · have := pow_lt_one₀ (abs_nonneg x) hlt hn
      linarith
    · exact heq
    · have := one_lt_pow₀ hgt hn
      linarith
  rcases (abs_eq (by norm_num : (0:ℚ) ≤ 1)).mp hx1 with h1 | h1
  · exact Or.inl h1
  · right
    refine ⟨h1, ?_⟩
    rcases Nat.even_or_odd n with he | ho
    · exact he
    · rw [h1, ho.neg_one_pow] at h
      norm_num at h

lemma emi_none_iff (p r : ℚ) (m : ℤ) :
    emi_amount p r m = none ↔ 0 < p ∧ 0 < m ∧ r = -2400 ∧ Even m := by
  unfold emi_amount
  by_cases h1 : p ≤ 0 ∨ m ≤ 0
  · rw [if_pos h1]
    simp only [reduceCtorEq, false_iff]
    rintro ⟨hp, hm, -, -⟩
    rcases h1 with h | h
    · linarith
    · omega
  · rw [if_neg h1]
    push_neg at h1
    obtain ⟨hp, hm⟩ := h1
    by_cases h2 : r / 100 / 12 = 0
    · rw [if_pos h2]
      simp only [reduceCtorEq, false_iff]
      rintro ⟨-, -, hr, -⟩
      rw [hr] at h2
      norm_num at h2
    · rw [if_neg h2]
      by_cases h3 : (1 + r / 100 / 12) ^ m.toNat - 1 = 0
      · rw [if_pos h3]
        simp only [true_iff]
        refine ⟨by linarith, by omega, ?_⟩
        have hk : m.toNat ≠ 0 := by omega
        have hpow : (1 + r / 100 / 12) ^ m.toNat = 1 := by linarith
        rcases pow_eq_one_rat _ _ hk hpow with hone | ⟨hneg, heven⟩
        · exfalso
          apply h2
          linarith
        · constructor
          · have hr2 : r / 100 / 12 = -2 := by linarith
            field_simp at hr2
            linarith
          · have hmt : Even ((m.toNat : ℤ)) := (Int.even_coe_nat m.toNat).mpr heven
            rwa [Int.toNat_of_nonneg (by omega : (0:ℤ) ≤ m)] at hmt
      · rw [if_neg h3]
        simp only [reduceCtorEq, false_iff]
        rintro ⟨-, -, hr, heven⟩
        apply h3
        have hk : Even m.toNat := by
          rcases heven with ⟨t, ht⟩
          refine ⟨t.toNat, ?_⟩
          omega
        rw [hr]
        rw [show (1 : ℚ) + -2400 / 100 / 12 = -1 by norm_num]
        rw [hk.neg_one_pow]
        norm_num

lemma emi_ne_none (p r : ℚ) (m : ℤ) (hr : r ≠ -2400) : emi_amount p r m ≠ none := by
  intro h
  rw [emi_none_iff] at h
  exact hr h.2.2.1

lemma css_eq (a : Applicant)
    (hm : pyLower (pyOrS a.marital_status "single") = pyOrS a.marital_status "single") :
    Plain.compute_score_salaried a = Valid.compute_score_salaried a := by
  unfold Plain.compute_score_salaried Valid.compute_score_salaried
  rw [hm, pyOrV_zero]

lemma csp_eq (a : Applicant)
    (hm : pyLower (pyOrS a.marital_status "single") = pyOrS a.marital_status "single") :
    Plain.compute_score_professional a = Valid.compute_score_professional a := by
  unfold Plain.compute_score_professional Valid.compute_score_professional
  rw [hm, pyOrV_zero]

lemma css_fst_bounds (a : Applicant) :
    0 ≤ (Plain.compute_score_salaried a).1 ∧ (Plain.compute_score_salaried a).1 ≤ 100 := by
  unfold Plain.compute_score_salaried
  dsimp only
  constructor
  · refine le_min ?_ (by norm_num)
    repeat' apply add_nonneg
    · norm_num
    · norm_num
    · split_ifs <;> norm_num
    · exact marital_getD_nonneg _
    · exact age_score_nonneg _
    · exact dependent_score_nonneg _
    · exact bank_rel_score_nonneg _
    · exact residence_getD_nonneg _
    · exact yaa_score_nonneg _
    · exact spouse_score_nonneg _
    · exact disposable_score_nonneg _
    · exact eminmi_score_nonneg _
    · exact repayment_getD_nonneg _
    · exact itr_score_nonneg _
    · exact avgbal_score_nonneg _
    · exact cibil_score_nonneg _
    · exact credit_getD_nonneg _
  · exact min_le_right _ _

lemma csp_fst_bounds (a : Applicant) :
    0 ≤ (Plain.compute_score_professional a).1 ∧ (Plain.compute_score_professional a).1 ≤ 100 := by
  unfold Plain.compute_score_professional
  dsimp only
  constructor
  · refine le_min ?_ (by norm_num)
    repeat' apply add_nonneg
    · norm_num
    · exact dependent_score_nonneg _
    · split_ifs <;> norm_num
    · exact marital_getD_nonneg _
    · exact age_score_nonneg _
    · exact mul_nonneg (bank_rel_score_nonneg _) (by norm_num)
    · exact residence_getD_nonneg _
    · exact yaa_score_nonneg _
    · exact disposable_score_nonneg _
    · exact eminmi_score_nonneg _
    · exact prof_networth_score_nonneg _
    · exact trend_getD_nonneg _
    · exact prof_turnover_score_nonneg _
    · exact prof_itr_score_nonneg _
    · exact avgbal_score_nonneg _
    · exact cibil_score_nonneg _
    · exact credit_getD_nonneg _
  · exact min_le_right _ _

lemma css_snd (a : Applicant) :
    (Plain.compute_score_salaried a).2 = gradeOf (Plain.compute_score_salaried a).1 := rfl

lemma csp_snd (a : Applicant) :
    (Plain.compute_score_professional a).2 = gradeOf (Plain.compute_score_professional a).1 := rfl

lemma pyOrZ_some_lt (c : ℤ) : (pyOrZ (some c) 0 < 700 ↔ c < 700) := by
  show (if c = 0 then (0:ℤ) else c) < 700 ↔ c < 700
  split_ifs with h <;> omega

lemma sameNumbers_refl (d : Decision) : d.sameNumbers d :=
  ⟨rfl, rfl, rfl, rfl, rfl, rfl, rfl⟩
lemma scoreOf_eq (a : Applicant)
    (hm : pyLower (pyOrS a.marital_status "single") = pyOrS a.marital_status "single") :
    Plain.scoreOf a = Valid.scoreOf a := by
  unfold Plain.scoreOf Valid.scoreOf
  rw [css_eq a hm, csp_eq a hm]

lemma ctd_eq (a : Applicant) : Plain.capTenureDed a = Valid.capTenureDed a := rfl

lemma sar_agree (a : Applicant) (base : ℚ)
    (hm : pyLower (pyOrS a.marital_status "single") = pyOrS a.marital_status "single") :
    sameNumbersO (Plain.score_and_recommend a base) (Valid.score_and_recommend a base) := by
  simp only [Plain.score_and_recommend, Valid.score_and_recommend, rate_eq,
    scoreOf_eq a hm, ctd_eq]
  generalize Valid.scoreOf a = sc
  generalize Valid.capTenureDed a = etd
  generalize Valid.determine_interest_rate a base = rate
  obtain ⟨cap, ten, ded⟩ := etd
  cases hE : emi_amount (pyOrQ a.proposed_loan_amount cap) rate ten with
  | none =>
    simp only [sameNumbersO]
  | some emi =>
    by_cases hg : gross_monthly_of a.gross_monthly_income a.gross_annual_income ≤ 0
    · simp only [if_pos hg, sameNumbersO]
      exact ⟨rfl, rfl, rfl, rfl, rfl, rfl, rfl⟩
    · simp only [if_neg hg]
      by_cases hd : emi / gross_monthly_of a.gross_monthly_income a.gross_annual_income * 100 > ded
      · simp only [if_pos hd, sameNumbersO]
        exact ⟨rfl, rfl, rfl, rfl, rfl, rfl, rfl⟩
      · simp only [if_neg hd]
        by_cases hpe : pyOrQ a.proposed_loan_amount cap > cap
        · simp only [if_pos hpe, min_eq_right (le_of_lt hpe)]
          cases hE2 : emi_amount cap rate ten with
          | none => simp only [sameNumbersO]
          | some re =>
            simp only [sameNumbersO]
            exact ⟨rfl, rfl, rfl, rfl, rfl, rfl, rfl⟩
        · simp only [if_neg hpe, min_eq_left (le_of_not_lt hpe), hE]
          simp only [sameNumbersO]
          exact ⟨rfl, rfl, rfl, rfl, rfl, rfl, rfl⟩

lemma engines_agree (ca : CApplicant) (base : ℚ) (c : ℤ)
    (hm : pyLower (pyOrS ca.toApplicant.marital_status "single")
            = pyOrS ca.toApplicant.marital_status "single")
    (hcs : ca.toApplicant.cibil_score = some c)
    (h1 : ca.kyc_ok = true) (h2 : ca.payslips_ok = true) (h3 : ca.fraud_ok = true)
    (h4 : ca.bank_rel_ok = true) (h5 : ca.address_ok = true) (h6 : ca.visit_verified = true)
    (ht : ca.toApplicant.applicant_type = "salaried" ∨ ca.toApplicant.applicant_type = "professional") :
    sameNumbersO (Plain.eligibility_and_recommendation ca.toApplicant base)
                 (Valid.eligibility_and_recommendation ca base) := by
  simp only [Plain.eligibility_and_recommendation, Valid.eligibility_and_recommendation,
    h1, h2, h3, h4, h5, h6, hcs, pyOrZ_some_lt, if_neg (not_not_intro ht),
    ite_true, ite_false, not_true, not_false_iff, true_or, or_true, true_and, and_true,
    false_and, and_false, false_or, or_false, decide_eq_true_eq, not_true_eq_false]
  by_cases hc : c < 700
  · simp only [if_pos hc, sameNumbersO]
    exact sameNumbers_refl _
  · simp only [if_neg hc]
    by_cases hage : ca.toApplicant.applicant_type = "salaried" ∧ (ca.toApplicant.age < 21 ∨ ca.toApplicant.age > 58)
    · simp only [if_pos hage, sameNumbersO]
      exact sameNumbers_refl _
    · simp only [if_neg hage]
      exact sar_agree ca.toApplicant base hm

lemma sar_reason_not_cibil (a : Applicant) (base : ℚ) (d : Decision)
    (h : Plain.score_and_recommend a base = some d) (o : Option ℤ) :
    d.reason ≠ Reason.cibilBelow o := by
  simp only [Plain.score_and_recommend] at h
  repeat' split at h
  all_goals first
    | (injection h; done)
    | (injection h with h'; subst h'; simp)

lemma plain_sar_insufficient (a : Applicant) (base : ℚ) (d : Decision)
    (h : Plain.score_and_recommend a base = some d)
    (hr : d.reason = Reason.insufficientIncome) :
    d.eligible = false ∧
    d.details = [("score", DVal.num (Plain.scoreOf a).1), ("grade", DVal.int (Plain.scoreOf a).2)] := by
  simp only [Plain.score_and_recommend] at h
  repeat' split at h
  all_goals first
    | (injection h; done)
    | (injection h with h'; subst h'; simp; done)
    | (injection h with h'; subst h'; simp at hr)
    | (injection h with h'; subst h'; simp_all)

lemma valid_sar_insufficient (a : Applicant) (base : ℚ) (d : Decision)
    (h : Valid.score_and_recommend a base = some d)
    (hr : d.reason = Reason.insufficientIncome) :
    d.eligible = false ∧
    d.details = [("gross_monthly", DVal.num (gross_monthly_of a.gross_monthly_income a.gross_annual_income))] ∧
    d.details.lookup "score" = none ∧ d.details.lookup "grade" = none := by
  simp only [Valid.score_and_recommend] at h
  repeat' split at h
  all_goals first
    | (injection h; done)
    | (injection h with h'; subst h'; simp; done)
    | (injection h with h'; subst h'; simp at hr)
    | (injection h with h'; subst h'; simp_all)

lemma valid_rate_gt (a : Applicant) (base : ℚ) :
    base < Valid.determine_interest_rate a base := by
  rw [← rate_eq]
  exact plain_rate_gt a base

lemma sar_insufficient_forward (a : Applicant) (base : ℚ)
    (hg : gross_monthly_of a.gross_monthly_income a.gross_annual_income ≤ 0)
    (hb : -2400 ≤ base) :
    Plain.score_and_recommend a base
      = some { eligible := false, reason := .insufficientIncome,
               details := [("score", DVal.num (Plain.scoreOf a).1),
                           ("grade", DVal.int (Plain.scoreOf a).2)] } := by
  have hrate : Plain.determine_interest_rate a base ≠ -2400 := by
    have := plain_rate_gt a base
    intro heq
    rw [heq] at this
    linarith
  simp only [Plain.score_and_recommend]
  cases hE : emi_amount (pyOrQ a.proposed_loan_amount (Plain.capTenureDed a).1)
      (Plain.determine_interest_rate a base) (Plain.capTenureDed a).2.1 with
  | none => exact absurd hE (emi_ne_none _ _ _ hrate)
  | some emi =>
    dsimp only
    rw [if_pos hg]

lemma valid_sar_insufficient_forward (a : Applicant) (base : ℚ)
    (hg : gross_monthly_of a.gross_monthly_income a.gross_annual_income ≤ 0)
    (hb : -2400 ≤ base) :
    Valid.score_and_recommend a base
      = some { eligible := false, reason := .insufficientIncome,
               details := [("gross_monthly",
                 DVal.num (gross_monthly_of a.gross_monthly_income a.gross_annual_income))] } := by
  have hrate : Valid.determine_interest_rate a base ≠ -2400 := by
    have := valid_rate_gt a base
    intro heq
    rw [heq] at this
    linarith
  simp only [Valid.score_and_recommend]
  cases hE : emi_amount (pyOrQ a.proposed_loan_amount (Valid.capTenureDed a).1)
      (Valid.determine_interest_rate a base) (Valid.capTenureDed a).2.1 with
  | none => exact absurd hE (emi_ne_none _ _ _ hrate)
  | some emi =>
    dsimp only
    rw [if_pos hg]

lemma ctd_fst_eq_capOf (a : Applicant) : (Plain.capTenureDed a).1 = capOf a := by
  unfold Plain.capTenureDed capOf
  split_ifs <;> rfl

lemma ctd_tenure (a : Applicant) :
    (Plain.capTenureDed a).2.1
      = (if a.applicant_type = "salaried" ∧ a.category = some "A" ∧ a.salary_account_with_bom
         then 84 else 60) := by
  unfold Plain.capTenureDed
  by_cases ht : a.applicant_type = "salaried"
  · rw [if_pos ht]
    dsimp only
    by_cases hA : a.category = some "A" ∧ a.salary_account_with_bom = true
    · rw [if_pos hA, if_pos ⟨ht, hA⟩]
    · rw [if_neg hA, if_neg (fun hc => hA ⟨hc.2.1, hc.2.2⟩)]
  · rw [if_neg ht]
    dsimp only
    rw [if_neg (fun hc => ht hc.1)]

lemma sar_final (a : Applicant) (base : ℚ) (d : Decision)
    (h : Plain.score_and_recommend a base = some d) (hg : d.grade.isSome) :
    d.tenure_months = (Plain.capTenureDed a).2.1 ∧
    d.recommended_loan
      = min (pyOrQ a.proposed_loan_amount (Plain.capTenureDed a).1) (Plain.capTenureDed a).1 ∧
    d.details.lookup "eligible_by_income" = some (.num (Plain.capTenureDed a).1) ∧
    d.details.lookup "proposed"
      = some (.num (pyOrQ a.proposed_loan_amount (Plain.capTenureDed a).1)) ∧
    emi_amount d.recommended_loan d.annual_rate_percent d.tenure_months = some d.emi := by
  simp only [Plain.score_and_recommend] at h
  cases hE : emi_amount (pyOrQ a.proposed_loan_amount (Plain.capTenureDed a).1)
      (Plain.determine_interest_rate a base) (Plain.capTenureDed a).2.1 with
  | none =>
    rw [hE] at h
    injection h
  | some emi =>
    rw [hE] at h
    dsimp only at h
    by_cases hg0 : gross_monthly_of a.gross_monthly_income a.gross_annual_income ≤ 0
    · rw [if_pos hg0] at h
      injection h with h'
      subst h'
      simp at hg
    · rw [if_neg hg0] at h
      by_cases hd : emi / gross_monthly_of a.gross_monthly_income a.gross_annual_income * 100
          > (Plain.capTenureDed a).2.2
      · rw [if_pos hd] at h
        injection h with h'
        subst h'
        simp at hg
      · rw [if_neg hd] at h
        by_cases hpe : pyOrQ a.proposed_loan_amount (Plain.capTenureDed a).1 > (Plain.capTenureDed a).1
        · rw [if_pos hpe] at h
          cases hE2 : emi_amount (Plain.capTenureDed a).1 (Plain.determine_interest_rate a base)
              (Plain.capTenureDed a).2.1 with
          | none =>
            rw [hE2] at h
            injection h
          | some re =>
            rw [hE2] at h
            dsimp only at h
            injection h with h'
            subst h'
            refine ⟨rfl, ?_, by simp [List.lookup], by simp [List.lookup], ?_⟩
            · rw [min_eq_right (le_of_lt hpe)]
            · exact hE2
        · rw [if_neg hpe] at h
          dsimp only at h
          injection h with h'
          subst h'
          refine ⟨rfl, ?_, by simp [List.lookup], by simp [List.lookup], ?_⟩
          · rw [min_eq_left (le_of_not_lt hpe)]
          · exact hE

/-- C2 (corrected): the plain variant rejects on CIBIL exactly when the
score is present and below 700 (an absent score passes the gate), but
the compliance variant treats an absent CIBIL score as 0 and rejects
it. -/
theorem c2_null_cibil :
    (∀ (a : Applicant) (base : ℚ) (d : Decision),
        Plain.eligibility_and_recommendation a base = some d →
        a.cibil_score = none → ∀ o, d.reason ≠ Reason.cibilBelow o) ∧
    (∀ (a : Applicant) (base : ℚ) (c : ℤ),
        a.cibil_score = some c → 700 ≤ c →
        ∀ d, Plain.eligibility_and_recommendation a base = some d →
          ∀ o, d.reason ≠ Reason.cibilBelow o) ∧
    (∀ (a : Applicant) (base : ℚ) (c : ℤ),
        a.cibil_score = some c → c < 700 →
        (a.applicant_type = "salaried" ∨ a.applicant_type = "professional") →
        Plain.eligibility_and_recommendation a base
          = some { eligible := false, reason := Reason.cibilBelow (some c) }) ∧
    (∀ (ca : CApplicant) (base : ℚ),
        ca.kyc_ok = true → ca.payslips_ok = true → ca.fraud_ok = true →
        ca.bank_rel_ok = true → ca.address_ok = true → ca.visit_verified = true →
        ca.cibil_score = none →
        Valid.eligibility_and_recommendation ca base
          = some { eligible := false, reason := Reason.cibilBelow none }) := by
  refine ⟨?_, ?_, ?_, ?_⟩
  · intro a base d h hnone o
    simp only [Plain.eligibility_and_recommendation, hnone, Bool.false_eq_true, if_false] at h
    split at h
    · injection h with h'
      subst h'
      simp
    · split at h
      · injection h with h'
        subst h'
        simp
      · exact sar_reason_not_cibil a base d h o
  · intro a base c hcs hc d h o
    simp only [Plain.eligibility_and_recommendation, hcs, decide_eq_true_eq] at h
    rw [if_neg (by omega : ¬ c < 700)] at h
    split at h
    · injection h with h'
      subst h'
      simp
    · split at h
      · injection h with h'
        subst h'
        simp
      · exact sar_reason_not_cibil a base d h o
  · intro a base c hcs hc ht
    simp only [Plain.eligibility_and_recommendation, hcs, decide_eq_true_eq,
      if_neg (not_not_intro ht), if_pos hc]
  · intro ca base h1 h2 h3 h4 h5 h6 hnone
    simp only [Valid.eligibility_and_recommendation, h1, h2, h3, h4, h5, h6, hnone, pyOrZ,
      ite_true, ite_false, not_true, not_false_iff, true_and, and_true, and_self]
    norm_num

/-- Counterexample for C2 as stated: an applicant whose CIBIL score is
absent and who passes every compliance gate is rejected by the
compliance variant with the CIBIL reason, so the two variants do not
both let an absent CIBIL score pass. -/
theorem c2_null_cibil_counterexample :
    c2nullCibilApp.cibil_score = none ∧
    Valid.eligibility_and_recommendation c2nullCibilApp 10
      = some { eligible := false, reason := Reason.cibilBelow none } := by
  constructor
  · rfl
  · simp [Valid.eligibility_and_recommendation, pyOrZ, c2nullCibilApp]

/-- Witness for C2: the plain engine rejects CIBIL 650 citing CIBIL, and
the compliance engine rejects an absent CIBIL score. -/
theorem c2_null_cibil_witness :
    Plain.eligibility_and_recommendation c9cibilApp 10
      = some { eligible := false, reason := Reason.cibilBelow (some 650) } ∧
    Valid.eligibility_and_recommendation c2nullCibilApp 10
      = some { eligible := false, reason := Reason.cibilBelow none } :=
  ⟨c2_null_cibil.2.2.1 c9cibilApp 10 650 rfl (by norm_num) (Or.inl rfl),
   c2_null_cibil.2.2.2 c2nullCibilApp 10 rfl rfl rfl rfl rfl rfl rfl⟩

/-- C8 (corrected): when the derived gross monthly income is not positive
the engines reject with the insufficient-income reason; the plain
variant reports the already-computed score and grade in the details,
but the compliance variant reports only the gross monthly figure. -/
theorem c8_insufficient_income :
    (∀ (a : Applicant) (base : ℚ) (d : Decision),
        Plain.eligibility_and_recommendation a base = some d →
        d.reason = Reason.insufficientIncome →
        d.eligible = false ∧
        d.details = [("score", DVal.num (Plain.scoreOf a).1),
                     ("grade", DVal.int (Plain.scoreOf a).2)]) ∧
    (∀ (a : Applicant) (base : ℚ),
        (a.applicant_type = "salaried" ∨ a.applicant_type = "professional") →
        (∀ c, a.cibil_score = some c → 700 ≤ c) →
        ¬ (a.applicant_type = "salaried" ∧ (a.age < 21 ∨ a.age > 58)) →
        gross_monthly_of a.gross_monthly_income a.gross_annual_income ≤ 0 →
        -2400 ≤ base →
        Plain.eligibility_and_recommendation a base
          = some { eligible := false, reason := .insufficientIncome,
                   details := [("score", DVal.num (Plain.scoreOf a).1),
                               ("grade", DVal.int (Plain.scoreOf a).2)] }) ∧
    (∀ (ca : CApplicant) (base : ℚ) (d : Decision),
        Valid.eligibility_and_recommendation ca base = some d →
        d.reason = Reason.insufficientIncome →
        d.eligible = false ∧
        d.details.lookup "score" = none ∧ d.details.lookup "grade" = none) := by
  refine ⟨?_, ?_, ?_⟩
  · intro a base d h hr
    simp only [Plain.eligibility_and_recommendation] at h
    split at h
    · injection h with h'
      subst h'
      simp at hr
    · split at h
      · injection h with h'
        subst h'
        simp at hr
      · split at h
        · injection h with h'
          subst h'
          simp at hr
        · exact plain_sar_insufficient a base d h hr
  · intro a base ht hcib hage hg hb
    have hcf : (match a.cibil_score with | some c => decide (c < 700) | none => false) = false := by
      cases hcs : a.cibil_score with
      | none => rfl
      | some c => exact decide_eq_false (by have := hcib c hcs; omega)
    simp only [Plain.eligibility_and_recommendation, if_neg (not_not_intro ht), hcf,
      Bool.false_eq_true, if_false, if_neg hage]
    exact sar_insufficient_forward a base hg hb
  · intro ca base d h hr
    simp only [Valid.eligibility_and_recommendation] at h
    split at h
    · injection h with h'
      subst h'
      simp at hr
    · split at h
      · injection h with h'
        subst h'
        simp at hr
      · split at h
        · injection h with h'
          subst h'
          simp at hr
        · split at h
          · injection h with h'
            subst h'
            simp at hr
          · have := valid_sar_insufficient ca.toApplicant base d h hr
            exact ⟨this.1, this.2.2.1, this.2.2.2⟩

/-- Counterexample for C8 as stated: an income-less applicant passing
every compliance gate is rejected by the compliance variant with
details that carry only gross_monthly — no score or grade. -/
theorem c8_insufficient_income_counterexample :
    Valid.eligibility_and_recommendation c8validApp 10
      = some { eligible := false, reason := .insufficientIncome,
               details := [("gross_monthly", DVal.num 0)] } ∧
    ([("gross_monthly", DVal.num 0)] : List (String × DVal)).lookup "score" = none := by
  constructor
  · have h := valid_sar_insufficient_forward c8validApp.toApplicant 10
      (by norm_num [gross_monthly_of, pyOrQ, c8validApp]) (by norm_num)
    rw [show (gross_monthly_of c8validApp.toApplicant.gross_monthly_income
          c8validApp.toApplicant.gross_annual_income) = 0 by
        norm_num [gross_monthly_of, pyOrQ, c8validApp]] at h
    simp only [Valid.eligibility_and_recommendation, c8validApp, pyOrZ] at h ⊢
    norm_num [h]
  · rfl

/-- Witness for C8 at an income-less plain-variant applicant with
CIBIL 750. -/
theorem c8_insufficient_income_witness :
    Plain.eligibility_and_recommendation c8plainApp 10
      = some { eligible := false, reason := .insufficientIncome,
               details := [("score", DVal.num (Plain.scoreOf c8plainApp).1),
                           ("grade", DVal.int (Plain.scoreOf c8plainApp).2)] } :=
  c8_insufficient_income.2.1 c8plainApp 10 (Or.inl rfl)
    (fun c hc => by
      have : (750 : ℤ) = c := by
        have h750 : c8plainApp.cibil_score = some 750 := rfl
        rw [h750] at hc
        injection hc
      omega)
    (by norm_num [c8plainApp])
    (by norm_num [gross_monthly_of, pyOrQ, c8plainApp])
    (by norm_num)

/-- C9 (corrected): a salaried applicant whose age is outside [21,58] is
always rejected, but the reason cites the age band only when the
earlier gates pass: in the plain variant the CIBIL gate fires first
when a CIBIL score below 700 is present, and in the compliance variant
the compliance/PSVR/CIBIL gates fire first. -/
theorem c9_age_gate :
    (∀ (a : Applicant) (base : ℚ),
        a.applicant_type = "salaried" → (a.age < 21 ∨ a.age > 58) →
        ∃ d, Plain.eligibility_and_recommendation a base = some d ∧ d.eligible = false) ∧
    (∀ (a : Applicant) (base : ℚ),
        a.applicant_type = "salaried" → (a.age < 21 ∨ a.age > 58) →
        (∀ c, a.cibil_score = some c → 700 ≤ c) →
        Plain.eligibility_and_recommendation a base
          = some { eligible := false, reason := Reason.ageBand a.age }) ∧
    (∀ (ca : CApplicant) (base : ℚ),
        ca.kyc_ok = true → ca.payslips_ok = true → ca.fraud_ok = true →
        ca.bank_rel_ok = true → ca.address_ok = true → ca.visit_verified = true →
        ca.applicant_type = "salaried" → (ca.age < 21 ∨ ca.age > 58) →
        700 ≤ pyOrZ ca.cibil_score 0 →
        Valid.eligibility_and_recommendation ca base
          = some { eligible := false, reason := Reason.ageBand ca.age }) := by
  refine ⟨?_, ?_, ?_⟩
  · intro a base ht hage
    by_cases hcf : (match a.cibil_score with | some c => decide (c < 700) | none => false) = true
    · refine ⟨{ eligible := false, reason := .cibilBelow a.cibil_score }, ?_, rfl⟩
      simp only [Plain.eligibility_and_recommendation, if_neg (not_not_intro (Or.inl ht)),
        if_pos hcf]
    · have hcf' : (match a.cibil_score with | some c => decide (c < 700) | none => false) = false := by
        cases hb : (match a.cibil_score with | some c => decide (c < 700) | none => false) with
        | true => exact absurd hb hcf
        | false => rfl
      refine ⟨{ eligible := false, reason := .ageBand a.age }, ?_, rfl⟩
      have hA : a.applicant_type = "salaried" ∧ (a.age < 21 ∨ a.age > 58) := ⟨ht, hage⟩
      simp only [Plain.eligibility_and_recommendation, if_neg (not_not_intro (Or.inl ht)),
        hcf', Bool.false_eq_true, if_false, if_pos hA]
  · intro a base ht hage hcib
    have hcf : (match a.cibil_score with | some c => decide (c < 700) | none => false) = false := by
      cases hcs : a.cibil_score with
      | none => rfl
      | some c => exact decide_eq_false (by have := hcib c hcs; omega)
    have hA : a.applicant_type = "salaried" ∧ (a.age < 21 ∨ a.age > 58) := ⟨ht, hage⟩
    simp only [Plain.eligibility_and_recommendation, if_neg (not_not_intro (Or.inl ht)),
      hcf, Bool.false_eq_true, if_false, if_pos hA]
  · intro ca base h1 h2 h3 h4 h5 h6 ht hage h700
    have hA : ca.applicant_type = "salaried" ∧ (ca.age < 21 ∨ ca.age > 58) := ⟨ht, hage⟩
    simp only [Valid.eligibility_and_recommendation, h1, h2, h3, h4, h5, h6,
      if_neg (not_lt.mpr h700), if_pos hA,
      ite_true, ite_false, not_true, not_false_iff, true_and, and_true, and_self]

/-- Counterexample for C9 as stated: a salaried applicant aged 60 with a
CIBIL score of 650 is rejected with the CIBIL reason, not the age band,
so the age-band citation does not hold regardless of all other fields. -/
theorem c9_age_gate_counterexample :
    c9cibilApp.applicant_type = "salaried" ∧ c9cibilApp.age = 60 ∧
    Plain.eligibility_and_recommendation c9cibilApp 10
      = some { eligible := false, reason := Reason.cibilBelow (some 650) } := by
  refine ⟨rfl, rfl, ?_⟩
  simp [Plain.eligibility_and_recommendation, c9cibilApp]

/-- Witness for C9 at a salaried applicant aged 60 with no CIBIL
score. -/
theorem c9_age_gate_witness :
    Plain.eligibility_and_recommendation c9ageApp 10
      = some { eligible := false, reason := Reason.ageBand 60 } :=
  c9_age_gate.2.1 c9ageApp 10 rfl (Or.inr (by norm_num [c9ageApp]))
    (fun c hc => by simp [c9ageApp] at hc)

/-- C3: for every plain-variant evaluation that reaches the
recommendation stage, the details carry the income-based eligibility
cap min(20 x gross monthly, 2,000,000) for salaried and
min(1.5 x gross annual, 2,000,000) for professional, the tenure is 84
months exactly for salaried category-A applicants with a bank salary
account (60 otherwise), the recommended loan is min(proposed, cap),
and the returned EMI re-prices the recommended amount at the same rate
and tenure. -/
theorem c3_recommendation (a : Applicant) (base : ℚ) (d : Decision)
    (h : Plain.eligibility_and_recommendation a base = some d)
    (hg : d.grade.isSome) :
    d.tenure_months
      = (if a.applicant_type = "salaried" ∧ a.category = some "A" ∧ a.salary_account_with_bom
         then 84 else 60) ∧
    d.details.lookup "eligible_by_income" = some (.num (capOf a)) ∧
    d.details.lookup "proposed" = some (.num (pyOrQ a.proposed_loan_amount (capOf a))) ∧
    d.recommended_loan = min (pyOrQ a.proposed_loan_amount (capOf a)) (capOf a) ∧
    emi_amount d.recommended_loan d.annual_rate_percent d.tenure_months = some d.emi := by
  simp only [Plain.eligibility_and_recommendation] at h
  split at h
  · injection h with h'
    subst h'
    simp at hg
  · split at h
    · injection h with h'
      subst h'
      simp at hg
    · split at h
      · injection h with h'
        subst h'
        simp at hg
      · have hfin := sar_final a base d h hg
        rw [ctd_fst_eq_capOf, ctd_tenure] at hfin
        exact ⟨hfin.1, hfin.2.2.1, hfin.2.2.2.1, hfin.2.1, hfin.2.2.2.2⟩

/-- Witness for C3 at a salaried category-A applicant with a bank salary
account, CIBIL 810, income 50,000 and proposed loan 100,000 priced at
base rate -0.7 (so the priced rate is 0). -/
theorem c3_recommendation_witness :
    Plain.eligibility_and_recommendation c3okApp (-7/10) = some c3okDecision ∧
    c3okDecision.tenure_months = 84 ∧
    c3okDecision.recommended_loan
      = min (pyOrQ c3okApp.proposed_loan_amount (capOf c3okApp)) (capOf c3okApp) ∧
    emi_amount c3okDecision.recommended_loan c3okDecision.annual_rate_percent
      c3okDecision.tenure_months = some c3okDecision.emi := by
  have he : Plain.eligibility_and_recommendation c3okApp (-7/10) = some c3okDecision := by
    simp [Plain.eligibility_and_recommendation, Plain.score_and_recommend, Plain.scoreOf,
      Plain.capTenureDed, Plain.compute_score_salaried, Plain.determine_interest_rate,
      emi_amount, gross_monthly_of, slabOf, RATE_TABLE_SALARIED, pyOrQ, pyOrZ, pyOrS, pyOrV,
      pyLower, MARITAL_SCORE, AGE_SCORE, DEPENDENT_SCORE, BANK_REL_SCORE, RESIDENCE_SCORE,
      YEARS_AT_ADDRESS_SCORE, SPOUSE_INCOME_SCORE, DISPOSABLE_INCOME_SCORE, EMI_NMI_SCORE,
      REPAYMENT_TYPE_SCORE, ITR_SCORE, AVG_BALANCE_SCORE, CIBIL_SCORE_SCORE,
      CREDIT_HISTORY_MAP, gradeOf, c3okApp, c3okDecision]
    norm_num
  obtain ⟨h1, h2, h3, h4, h5⟩ := c3_recommendation c3okApp (-7/10) c3okDecision he rfl
  refine ⟨he, ?_, h4, h5⟩
  rw [h1]
  norm_num [c3okApp]

/-- C1 (corrected): the two scoring variants agree whenever the effective
marital-status string is already lower case (the plain variant lower-cases
it before the lookup, the compliance variant does not), and under that
condition the two full decision engines also agree on every numeric field
once the compliance gates pass and a CIBIL score is present; with a
mixed-case marital status the scorers differ, so the agreement is not
unconditional. -/
theorem c1_variant_equivalence :
    (∀ a : Applicant,
        pyLower (pyOrS a.marital_status "single") = pyOrS a.marital_status "single" →
        Plain.compute_score_salaried a = Valid.compute_score_salaried a ∧
        Plain.compute_score_professional a = Valid.compute_score_professional a) ∧
    (∀ (ca : CApplicant) (base : ℚ) (c : ℤ),
        pyLower (pyOrS ca.toApplicant.marital_status "single")
            = pyOrS ca.toApplicant.marital_status "single" →
        ca.toApplicant.cibil_score = some c →
        ca.kyc_ok = true → ca.payslips_ok = true → ca.fraud_ok = true →
        ca.bank_rel_ok = true → ca.address_ok = true → ca.visit_verified = true →
        (ca.toApplicant.applicant_type = "salaried" ∨
         ca.toApplicant.applicant_type = "professional") →
        sameNumbersO (Plain.eligibility_and_recommendation ca.toApplicant base)
                     (Valid.eligibility_and_recommendation ca base)) :=
  ⟨fun a hm => ⟨css_eq a hm, csp_eq a hm⟩,
   fun ca base c hm hcs h1 h2 h3 h4 h5 h6 ht =>
     engines_agree ca base c hm hcs h1 h2 h3 h4 h5 h6 ht⟩

/-- Counterexample for C1 as stated: on an applicant whose marital status
is the mixed-case string "Married", the plain salaried scorer (which
lower-cases before the lookup) yields (42, 5) while the compliance
salaried scorer yields (40, 5), so the two call sites are not
bit-identical on all field values. -/
theorem c1_variant_equivalence_counterexample :
    Plain.compute_score_salaried c1badApp = (42, 5) ∧
    Valid.compute_score_salaried c1badApp = (40, 5) ∧
    Plain.compute_score_salaried c1badApp ≠ Valid.compute_score_salaried c1badApp := by
  have h1 : Plain.compute_score_salaried c1badApp = (42, 5) := by
    simp [Plain.compute_score_salaried, c1badApp, pyOrQ, pyOrZ, pyOrS, pyOrV, pyLower, MARITAL_SCORE,
      AGE_SCORE, DEPENDENT_SCORE, BANK_REL_SCORE, RESIDENCE_SCORE, YEARS_AT_ADDRESS_SCORE,
      SPOUSE_INCOME_SCORE, DISPOSABLE_INCOME_SCORE, EMI_NMI_SCORE, REPAYMENT_TYPE_SCORE,
      ITR_SCORE, AVG_BALANCE_SCORE, CIBIL_SCORE_SCORE, CREDIT_HISTORY_MAP, gradeOf]
    norm_num
  have h2 : Valid.compute_score_salaried c1badApp = (40, 5) := by
    simp [Valid.compute_score_salaried, c1badApp, pyOrQ, pyOrZ, pyOrS, pyOrV, MARITAL_SCORE,
      AGE_SCORE, DEPENDENT_SCORE, BANK_REL_SCORE, RESIDENCE_SCORE, YEARS_AT_ADDRESS_SCORE,
      SPOUSE_INCOME_SCORE, DISPOSABLE_INCOME_SCORE, EMI_NMI_SCORE, REPAYMENT_TYPE_SCORE,
      ITR_SCORE, AVG_BALANCE_SCORE, CIBIL_SCORE_SCORE, CREDIT_HISTORY_MAP, gradeOf]
    norm_num
  refine ⟨h1, h2, ?_⟩
  rw [h1, h2]
  norm_num

/-- Witness for C1 at a compliance applicant with all gates passing, a
present CIBIL score of 810 and an already lower-case marital status. -/
theorem c1_variant_equivalence_witness :
    Plain.compute_score_salaried c1okApp.toApplicant
      = Valid.compute_score_salaried c1okApp.toApplicant ∧
    sameNumbersO (Plain.eligibility_and_recommendation c1okApp.toApplicant (-7/10))
                 (Valid.eligibility_and_recommendation c1okApp (-7/10)) :=
  ⟨(c1_variant_equivalence.1 c1okApp.toApplicant (by decide)).1,
   c1_variant_equivalence.2 c1okApp (-7/10) 810 (by decide) rfl rfl rfl rfl rfl rfl rfl
     (Or.inl rfl)⟩

/-- C7: the CIBIL point contribution follows the inverted bands exactly:
10 for >=800, 8 for [750,800), 6 for [700,750), 0 for (600,700), 3 for
<=600 -- so a score just above 600 but below 700 contributes strictly
less than a score <=600. -/
theorem c7_cibil_bands (s t : ℤ) :
    (800 ≤ s → CIBIL_SCORE_SCORE s = 10) ∧
    (750 ≤ s ∧ s < 800 → CIBIL_SCORE_SCORE s = 8) ∧
    (700 ≤ s ∧ s < 750 → CIBIL_SCORE_SCORE s = 6) ∧
    (600 < s ∧ s < 700 → CIBIL_SCORE_SCORE s = 0) ∧
    (s ≤ 600 → CIBIL_SCORE_SCORE s = 3) ∧
    (600 < s → s < 700 → t ≤ 600 → CIBIL_SCORE_SCORE s < CIBIL_SCORE_SCORE t) := by
  unfold CIBIL_SCORE_SCORE
  refine ⟨?_, ?_, ?_, ?_, ?_, ?_⟩ <;> intros <;> split_ifs <;>
    first | rfl | (exfalso; omega) | norm_num

/-- Witness for C7 at CIBIL 650 versus 600. -/
theorem c7_cibil_bands_witness :
    CIBIL_SCORE_SCORE 650 = 0 ∧ CIBIL_SCORE_SCORE 600 = 3 ∧
    CIBIL_SCORE_SCORE 650 < CIBIL_SCORE_SCORE 600 :=
  ⟨(c7_cibil_bands 650 600).2.2.2.1 ⟨by decide, by decide⟩,
   (c7_cibil_bands 600 600).2.2.2.2.1 (by decide),
   (c7_cibil_bands 650 600).2.2.2.2.2 (by decide) (by decide) (by decide)⟩

/-- C6: the rate resolver is total and returns at least the base rate;
it adds the salaried table spread (3.5 default on unmapped combinations
such as category C with a bank salary account) or the professional slab
entry (with the ntc default), and the two variants compute the same
rate. -/
theorem c6_rate_resolver (a : Applicant) (base : ℚ) :
    base ≤ Plain.determine_interest_rate a base ∧
    Valid.determine_interest_rate a base = Plain.determine_interest_rate a base ∧
    (a.applicant_type = "salaried" → a.category = some "C" → a.salary_account_with_bom = true →
      Plain.determine_interest_rate a base = base + 3.5) ∧
    (a.applicant_type ≠ "salaried" →
      Plain.determine_interest_rate a base
        = base + (RATE_TABLE_PROF (slabOf (pyOrZ a.cibil_score 0))).getD ((RATE_TABLE_PROF .ntc).getD 2.75)) := by
  refine ⟨(plain_rate_gt a base).le, (rate_eq a base).symm, ?_, ?_⟩
  · intro ht hc hb
    unfold Plain.determine_interest_rate
    rw [ht, hc, hb]
    simp only [ite_true, if_pos rfl]
    cases hsl : slabOf (pyOrZ a.cibil_score 0) <;> rfl
  · intro ht
    unfold Plain.determine_interest_rate
    rw [if_neg ht]

/-- Witness for C6 at a category-C salaried applicant with a bank salary
account and base rate 10. -/
theorem c6_rate_resolver_witness :
    (10 : ℚ) ≤ Plain.determine_interest_rate c6cBomApp 10 ∧
    Plain.determine_interest_rate c6cBomApp 10 = 10 + 3.5 := by
  obtain ⟨hle, -, hC, -⟩ := c6_rate_resolver c6cBomApp 10
  exact ⟨hle, hC rfl rfl rfl⟩

/-- C10: a salaried applicant with an absent category is priced as if the
category were C; with a bank salary account the key ('C','bom',slab) is
unmapped, so the 3.5 default spread applies. -/
theorem c10_missing_category (a : Applicant) (base : ℚ)
    (ht : a.applicant_type = "salaried") (hc : a.category = none) :
    Plain.determine_interest_rate a base
      = Plain.determine_interest_rate { a with category := some "C" } base ∧
    Valid.determine_interest_rate a base
      = Valid.determine_interest_rate { a with category := some "C" } base ∧
    (a.salary_account_with_bom = true → Plain.determine_interest_rate a base = base + 3.5) := by
  refine ⟨?_, ?_, ?_⟩
  · simp only [Plain.determine_interest_rate, ht, hc]
    rfl
  · simp only [Valid.determine_interest_rate, ht, hc]
    rfl
  · intro hb
    unfold Plain.determine_interest_rate
    rw [ht, hc, hb]
    simp only [ite_true, if_pos rfl]
    cases hsl : slabOf (pyOrZ a.cibil_score 0) <;> rfl

/-- Witness for C10 at a category-less salaried applicant with a bank
salary account and base rate 10. -/
theorem c10_missing_category_witness :
    Plain.determine_interest_rate c10noCatApp 10 = 10 + 3.5 ∧
    Plain.determine_interest_rate c10noCatApp 10
      = Plain.determine_interest_rate { c10noCatApp with category := some "C" } 10 := by
  obtain ⟨h1, -, h3⟩ := c10_missing_category c10noCatApp 10 rfl rfl
  exact ⟨h3 rfl, h1⟩

/-- C4: both scoring functions return a score in [0,100] and a grade
computed by the shared grade expression, whose bands are score>80 giving
grade 1, 71-80 giving 2, 61-70 giving 3, 50-60 giving 4, below 50 giving
5 (so the grade lies in one of the five risk tiers and is a
monotonically non-decreasing step function of 100 - score). -/
theorem c4_score_grade_invariants (a : Applicant) (s t : ℚ) :
    (0 ≤ (Plain.compute_score_salaried a).1 ∧ (Plain.compute_score_salaried a).1 ≤ 100 ∧
     (Plain.compute_score_salaried a).2 = gradeOf (Plain.compute_score_salaried a).1) ∧
    (0 ≤ (Plain.compute_score_professional a).1 ∧ (Plain.compute_score_professional a).1 ≤ 100 ∧
     (Plain.compute_score_professional a).2 = gradeOf (Plain.compute_score_professional a).1) ∧
    (gradeOf s = 1 ∨ gradeOf s = 2 ∨ gradeOf s = 3 ∨ gradeOf s = 4 ∨ gradeOf s = 5) ∧
    (s > 80 → gradeOf s = 1) ∧ (71 ≤ s ∧ s ≤ 80 → gradeOf s = 2) ∧
    (61 ≤ s ∧ s ≤ 70 → gradeOf s = 3) ∧ (50 ≤ s ∧ s ≤ 60 → gradeOf s = 4) ∧
    (s < 50 → gradeOf s = 5) ∧
    (s ≤ t → gradeOf t ≤ gradeOf s) := by
  obtain ⟨hs0, hs1⟩ := css_fst_bounds a
  obtain ⟨hp0, hp1⟩ := csp_fst_bounds a
  refine ⟨⟨hs0, hs1, css_snd a⟩, ⟨hp0, hp1, csp_snd a⟩, ?_, ?_, ?_, ?_, ?_, ?_, ?_⟩
  · unfold gradeOf
    split_ifs <;> simp
  · intro h
    unfold gradeOf
    rw [if_pos h]
  · rintro ⟨h1, h2⟩
    unfold gradeOf
    rw [if_neg (by linarith), if_pos (by linarith)]
  · rintro ⟨h1, h2⟩
    unfold gradeOf
    rw [if_neg (by linarith), if_neg (by linarith), if_pos (by linarith)]
  · rintro ⟨h1, h2⟩
    unfold gradeOf
    rw [if_neg (by linarith), if_neg (by linarith), if_neg (by linarith), if_pos (by linarith)]
  · intro h
    unfold gradeOf
    rw [if_neg (by linarith), if_neg (by linarith), if_neg (by linarith), if_neg (by linarith)]
  · intro h
    unfold gradeOf
    split_ifs <;> first | (exfalso; linarith) | norm_num

set_option maxHeartbeats 1000000 in
/-- Witness for C4 at a minimal salaried applicant and the scores 75 and
55. -/
theorem c4_score_grade_invariants_witness :
    0 ≤ (Plain.compute_score_salaried c8plainApp).1 ∧
    (Plain.compute_score_salaried c8plainApp).1 ≤ 100 ∧
    gradeOf 75 = 2 ∧ gradeOf 55 = 4 ∧ gradeOf 75 ≤ gradeOf 55 :=
  ⟨(c4_score_grade_invariants c8plainApp 75 55).1.1,
   (c4_score_grade_invariants c8plainApp 75 55).1.2.1,
   (c4_score_grade_invariants c8plainApp 75 55).2.2.2.2.1 ⟨by norm_num, by norm_num⟩,
   (c4_score_grade_invariants c8plainApp 55 75).2.2.2.2.2.2.1 ⟨by norm_num, by norm_num⟩,
   (c4_score_grade_invariants c8plainApp 55 75).2.2.2.2.2.2.2.2 (by norm_num)⟩

/-- C5 (corrected): emi_amount returns 0 when principal ≤ 0 or
months ≤ 0, returns principal/months when the monthly rate is zero, and
otherwise returns the amortization formula -- but it is not total:
whenever the principal and months are positive, the annual rate is
-2400 % (so the monthly factor 1 + r is -1) and the month count is
even, the compound denominator is exactly zero and the Python code
divides by zero (modelled as none). -/
theorem c5_emi_amount (principal rate : ℚ) (months : ℤ) :
    (principal ≤ 0 ∨ months ≤ 0 → emi_amount principal rate months = some 0) ∧
    (0 < principal → 0 < months → rate = 0 →
      emi_amount principal rate months = some (principal / (months : ℚ))) ∧
    (0 < principal → 0 < months → rate / 100 / 12 ≠ 0 →
      (1 + rate / 100 / 12) ^ months.toNat - 1 ≠ 0 →
      emi_amount principal rate months
        = some (principal * (rate / 100 / 12) * (1 + rate / 100 / 12) ^ months.toNat /
                ((1 + rate / 100 / 12) ^ months.toNat - 1))) ∧
    (0 < principal → 0 < months → rate = -2400 → Even months →
      emi_amount principal rate months = none) := by
  refine ⟨?_, ?_, ?_, ?_⟩
  · intro h
    unfold emi_amount
    rw [if_pos h]
  · intro hp hmon hr
    subst hr
    unfold emi_amount
    rw [if_neg (by push_neg; exact ⟨hp, hmon⟩)]
    norm_num
  · intro hp hmon hr hd
    unfold emi_amount
    rw [if_neg (by push_neg; exact ⟨hp, hmon⟩)]
    simp only [if_neg hr, if_neg hd]
  · intro hp hmon hr he
    exact (emi_none_iff principal rate months).mpr ⟨hp, hmon, hr, he⟩

/-- Counterexample for C5 as stated: at principal 100, annual rate
-2400 % and 2 months the Python emi_amount raises ZeroDivisionError
(the compound denominator is zero, modelled as none), so the function is
not total on all finite numeric inputs. -/
theorem c5_emi_amount_counterexample : emi_amount 100 (-2400) 2 = none :=
  (emi_none_iff 100 (-2400) 2).mpr ⟨by norm_num, by norm_num, rfl, by decide⟩

/-- Witness for C5: the zero-rate branch at (100000, 0, 60), the
degenerate branch at (-5, 10, 12), the compound branch at
(1200, 1200, 1), and the divide-by-zero family at (100, -2400, 2). -/
theorem c5_emi_amount_witness :
    emi_amount 100000 0 60 = some (100000 / 60) ∧
    emi_amount (-5) 10 12 = some 0 ∧
    emi_amount 1200 1200 1 = some (1200 * (1 / 1) * (1 + 1) ^ 1 / ((1 + 1) ^ 1 - 1)) ∧
    emi_amount 100 (-2400) 2 = none :=
  ⟨(c5_emi_amount 100000 0 60).2.1 (by norm_num) (by norm_num) rfl,
   (c5_emi_amount (-5) 10 12).1 (Or.inl (by norm_num)),
   by
    have h := (c5_emi_amount 1200 1200 1).2.2.1 (by norm_num) (by norm_num)
      (by norm_num) (by norm_num)
    rw [h]
    norm_num,
   (c5_emi_amount 100 (-2400) 2).2.2.2 (by norm_num) (by norm_num) rfl (by decide)⟩
